import Mathlib

/-!
Shallow embedding of the Nueva engine bridge (Python repository
`nueva-engine`) in Lean 4, together with theorems settling the frozen
claims about its specification.

Embedding conventions:
* Python `float` values that the claims reason about algebraically
  (intensity, guidance scale, durations) are modelled as `ℚ`.
* Python `dict[str, Any]` is modelled as a function `String → Option PyVal`
  (`Dict` below); `d[k] = v` is `dictInsert`, `d.update(e)` is `dictMerge`.
* Python `Optional[T]` is `Option T`; Python truthiness of optional strings
  and lists is made explicit (`strOptTruthy`, `listOptTruthy`).
* `async` control flow is modelled either as a sequential function with an
  explicit environment supplying the results of each awaited operation
  (single-caller claims) or as a small-step transition system whose atomic
  steps are the code regions between `await` points (the concurrency claim).
-/

/-- Opaque Python values stored in the open `kwargs` / `extra_params`
dictionaries.  Only the shapes the bridge itself writes are distinguished;
anything else is `other`. -/
inductive PyVal where
  | bool (b : Bool)
  | int (n : ℤ)
  | str (s : String)
  | strList (l : List String)
  | other (tag : ℕ)
deriving DecidableEq

/-- Model of a Python `dict[str, Any]`: lookup by key. -/
def Dict : Type := String → Option PyVal

/-- The empty dictionary `{}`. -/
def emptyDict : Dict := fun _ => none

/-- Python `d[k] = v`. -/
def dictInsert (d : Dict) (k : String) (v : PyVal) : Dict :=
  fun k' => if k' = k then some v else d k'

/-- Python `d.update(e)`: every key present in `e` overrides `d`. -/
def dictMerge (d e : Dict) : Dict :=
  fun k => match e k with
    | some v => some v
    | none => d k

/-- Truthiness of a Python `Optional[str]`: `None` and `""` are falsy. -/
def strOptTruthy : Option String → Bool
  | none => false
  | some s => s ≠ ""

/-- Truthiness of a Python `Optional[list[str]]`: `None` and `[]` are falsy. -/
def listOptTruthy : Option (List String) → Bool
  | none => false
  | some l => l ≠ []

/-- Python `f"{x}"` for an `Optional[str]`: `None` renders as `"None"`. -/
def pyShowOptStr : Option String → String
  | none => "None"
  | some s => s

/-- `protocol.AceStepMode`: the closed enumeration of processing modes. -/
inductive AceStepMode where
  | transform
  | cover
  | repaint
  | extract
  | layer
  | complete
deriving DecidableEq

/-- `protocol.NUEVA_TO_ACESTEP_TASK`: mapping from Nueva modes to ACE-Step
task names. -/
def NUEVA_TO_ACESTEP_TASK : AceStepMode → String
  | .transform => "text2music"
  | .cover => "cover"
  | .repaint => "repaint"
  | .extract => "extract"
  | .layer => "lego"
  | .complete => "complete"

/-- `protocol.NuevaRequest` (pydantic model). -/
structure NuevaRequest where
  mode : AceStepMode
  input_path : String
  output_path : String
  prompt : Option String := none
  intensity : ℚ := 7/10
  preserve_melody : Bool := true
  preserve_tempo : Bool := true
  preserve_key : Bool := true
  extract_target : Option String := none
  add_layers : Option (List String) := none
  remove_layers : Option (List String) := none
  duration_seconds : Option ℚ := none
  seed : Option ℤ := none
  quantization : Option String := none
  extra_params : Dict := emptyDict

/-- `protocol.NuevaResponse` (pydantic model). -/
structure NuevaResponse where
  success : Bool
  output_path : Option String := none
  processing_time_ms : ℕ
  description : String
  intentional_artifacts : List String := []
  warnings : List String := []
  error_code : Option String := none
  error_message : Option String := none
  metadata : Dict := emptyDict

/-- `protocol.AceStepRequest` (pydantic model).  The schema default for
`num_inference_steps` is 50; `nueva_to_acestep` never passes the field, so
the default always applies there. -/
structure AceStepRequest where
  task : String
  audio_path : Option String := none
  prompt : Option String := none
  guidance_scale : ℚ := 7
  num_inference_steps : ℕ := 50
  audio_duration : Option ℚ := none
  kwargs : Dict := emptyDict

/-- `protocol.AceStepResponse` (pydantic model). -/
structure AceStepResponse where
  success : Bool
  audio_path : Option String := none
  error : Option String := none
  metadata : Dict := emptyDict

/-- The kwargs dictionary built by `protocol.nueva_to_acestep` before the
final `kwargs.update(request.extra_params)`: mode-conditional entries
(with Python truthiness on `extract_target`, `add_layers`,
`remove_layers`), then the seed forwarded when not `None`. -/
def nuevaKwargsBase (request : NuevaRequest) : Dict :=
  let kwargs : Dict := emptyDict
  let kwargs : Dict :=
    match request.mode with
    | .cover =>
        let kwargs := dictInsert kwargs "preserve_melody" (.bool request.preserve_melody)
        let kwargs := dictInsert kwargs "preserve_tempo" (.bool request.preserve_tempo)
        dictInsert kwargs "preserve_key" (.bool request.preserve_key)
    | .extract =>
        if strOptTruthy request.extract_target then
          dictInsert kwargs "target" (.str (pyShowOptStr request.extract_target))
        else kwargs
    | .layer =>
        let kwargs :=
          match request.add_layers with
          | some l => if l ≠ [] then dictInsert kwargs "add_instruments" (.strList l) else kwargs
          | none => kwargs
        match request.remove_layers with
        | some l => if l ≠ [] then dictInsert kwargs "remove_instruments" (.strList l) else kwargs
        | none => kwargs
    | _ => kwargs
  match request.seed with
  | some n => dictInsert kwargs "seed" (.int n)
  | none => kwargs

/-- `protocol.nueva_to_acestep`: convert a Nueva request to ACE-Step API
format (continued): guidance scale formula, kwargs built by
`nuevaKwargsBase` and then `extra_params` merged last via `dict.update`. -/
def nueva_to_acestep (request : NuevaRequest) : AceStepRequest :=
  let task := NUEVA_TO_ACESTEP_TASK request.mode
  let guidance_scale : ℚ := 3 + request.intensity * 12
  let kwargs : Dict := dictMerge (nuevaKwargsBase request) request.extra_params
  { task := task
    audio_path := some request.input_path
    prompt := request.prompt
    guidance_scale := guidance_scale
    audio_duration := request.duration_seconds
    kwargs := kwargs }

/-- Case-insensitive-ready substring test used to model Python `pat in s`. -/
def containsSubstr (s pat : String) : Bool :=
  decide (pat.toList <:+: s.toList)

/-- Python `str.lower()` modelled as `String.toLower`. -/
def pyLower (s : String) : String := s.toLower

/-- `protocol.acestep_to_nueva`: convert an ACE-Step response back to Nueva
format.  On engine failure it reports `error_code = "ACESTEP_ERROR"` and a
description embedding the engine's error; on success it synthesizes the
per-mode artifact list (with prompt substring heuristics) and description. -/
def acestep_to_nueva (acestep_response : AceStepResponse)
    (original_request : NuevaRequest) (processing_time_ms : ℕ) : NuevaResponse :=
  if acestep_response.success = false then
    { success := false
      processing_time_ms := processing_time_ms
      description := "ACE-Step processing failed: " ++ pyShowOptStr acestep_response.error
      error_code := some "ACESTEP_ERROR"
      error_message := acestep_response.error }
  else
    let artifacts : List String :=
      match original_request.mode with
      | .cover =>
          let base := ["cover_timbre", "different_timbre"]
          if strOptTruthy original_request.prompt then
            let prompt_lower := pyLower (pyShowOptStr original_request.prompt)
            if ["jazz", "rock", "classical", "electronic"].any
                (fun g => containsSubstr prompt_lower g) then
              base ++ ["genre_transformation"]
            else base
          else base
      | .transform =>
          if strOptTruthy original_request.prompt ∧
             containsSubstr (pyLower (pyShowOptStr original_request.prompt)) "vintage" then
            ["intentional_coloration", "frequency_rolloff"]
          else ["intentional_coloration"]
      | .extract => ["vocal_extraction_artifacts"]
      | .layer => ["layer_artifacts"]
      | _ => []
    let mode_desc : String :=
      match original_request.mode with
      | .transform => "Generated music from prompt"
      | .cover => "Created cover version"
      | .repaint => "Repainted audio region"
      | .extract => "Extracted audio sources"
      | .layer => "Modified instrument layers"
      | .complete => "Added accompaniment"
    let description :=
      if strOptTruthy original_request.prompt then
        mode_desc ++ ": '" ++ pyShowOptStr original_request.prompt ++ "'"
      else mode_desc
    { success := true
      output_path :=
        match acestep_response.audio_path with
        | some p => if p ≠ "" then some p else some original_request.output_path
        | none => some original_request.output_path
      processing_time_ms := processing_time_ms
      description := description
      intentional_artifacts := artifacts
      metadata := acestep_response.metadata }

/-- A concrete well-formed request used to instantiate theorems. -/
def sampleCoverReq : NuevaRequest :=
  { mode := .cover
    input_path := "in.wav"
    output_path := "out.wav"
    prompt := some "jazz version"
    intensity := 1/2 }

/-- C1: for every `NuevaRequest` with intensity in [0,1], the engine task
produced by `nueva_to_acestep` has `guidance_scale = 3 + intensity * 12`;
as a function of intensity this value is deterministic, monotonically
non-decreasing, and bounded to [3,15]. -/
theorem C1_guidance_scale_contract (r : NuevaRequest)
    (h0 : 0 ≤ r.intensity) (h1 : r.intensity ≤ 1) :
    (nueva_to_acestep r).guidance_scale = 3 + r.intensity * 12 ∧
    3 ≤ (nueva_to_acestep r).guidance_scale ∧
    (nueva_to_acestep r).guidance_scale ≤ 15 ∧
    (∀ r' : NuevaRequest, r.intensity ≤ r'.intensity →
      (nueva_to_acestep r).guidance_scale ≤ (nueva_to_acestep r').guidance_scale) ∧
    (∀ r' : NuevaRequest, r.intensity = r'.intensity →
      (nueva_to_acestep r).guidance_scale = (nueva_to_acestep r').guidance_scale) := by
  have hg : ∀ q : NuevaRequest, (nueva_to_acestep q).guidance_scale = 3 + q.intensity * 12 := by
    intro q; simp [nueva_to_acestep]
  refine ⟨hg r, ?_, ?_, ?_, ?_⟩
  · rw [hg r]; nlinarith
  · rw [hg r]; nlinarith
  · intro r' hle; rw [hg r, hg r']; nlinarith
  · intro r' heq; rw [hg r, hg r', heq]

/-- Witness for C1 at the scenario request (intensity 0.5 ⇒ scale 9). -/
theorem C1_guidance_scale_contract_witness :
    (nueva_to_acestep sampleCoverReq).guidance_scale = 9 := by
  have h := (C1_guidance_scale_contract sampleCoverReq (by norm_num [sampleCoverReq])
    (by norm_num [sampleCoverReq])).1
  rw [h]; norm_num [sampleCoverReq]

/-- C2 counterexample: on an engine failure the backward translation reports
`error_code = "ACESTEP_ERROR"`, not `"ENGINE_ERROR"` as the claim states. -/
theorem C2_counterexample :
    (acestep_to_nueva { success := false, error := some "boom" } sampleCoverReq 12).success = false ∧
    (acestep_to_nueva { success := false, error := some "boom" } sampleCoverReq 12).error_code
      ≠ some "ENGINE_ERROR" := by
  constructor
  · rfl
  · intro h
    have : some "ACESTEP_ERROR" = some "ENGINE_ERROR" := by
      rw [← h]; rfl
    simp at this

/-- C2 amended: for every engine result with `success = false`, the backward
translation yields `success = false`, `error_code = "ACESTEP_ERROR"`, and a
description embedding the original engine error string. -/
theorem C2_engine_failure_translation (r : AceStepResponse) (q : NuevaRequest) (t : ℕ)
    (h : r.success = false) :
    (acestep_to_nueva r q t).success = false ∧
    (acestep_to_nueva r q t).error_code = some "ACESTEP_ERROR" ∧
    (acestep_to_nueva r q t).description =
      "ACE-Step processing failed: " ++ pyShowOptStr r.error ∧
    (acestep_to_nueva r q t).error_message = r.error ∧
    (∀ e, r.error = some e →
      e.toList <:+: (acestep_to_nueva r q t).description.toList) := by
  have hd : (acestep_to_nueva r q t).description =
      "ACE-Step processing failed: " ++ pyShowOptStr r.error := by
    simp [acestep_to_nueva, h]
  refine ⟨by simp [acestep_to_nueva, h], by simp [acestep_to_nueva, h], hd,
    by simp [acestep_to_nueva, h], ?_⟩
  intro e he
  rw [hd, he]
  refine List.IsSuffix.isInfix ?_
  show e.toList <:+ ("ACE-Step processing failed: " ++ e).toList
  refine ⟨"ACE-Step processing failed: ".toList, ?_⟩
  show "ACE-Step processing failed: ".data ++ e.data
    = ("ACE-Step processing failed: " ++ e).data
  rw [String.data_append]

/-- Witness for C2 amended at a concrete failing engine result. -/
theorem C2_engine_failure_translation_witness :
    (acestep_to_nueva { success := false, error := some "oom" } sampleCoverReq 5).error_code
      = some "ACESTEP_ERROR" :=
  (C2_engine_failure_translation { success := false, error := some "oom" }
    sampleCoverReq 5 rfl).2.1

/-- C10: for every `NuevaRequest`, the engine task produced by
`nueva_to_acestep` has `num_inference_steps` equal to the fixed schema
default 50: no field of the request influences it. -/
theorem C10_num_inference_steps_fixed (r : NuevaRequest) :
    (nueva_to_acestep r).num_inference_steps = 50 := by
  simp [nueva_to_acestep]

/-- An extract request whose `extract_target` is set to the empty string:
Python truthiness means no `target` kwarg is emitted for it. -/
def emptyTargetReq : NuevaRequest :=
  { mode := .extract
    input_path := "in.wav"
    output_path := "out.wav"
    extract_target := some "" }

/-- C5 counterexample: a request with `mode = extract` whose
`extract_target` is set (to `""`) nevertheless produces no `target` entry,
because the source guards the entry with Python truthiness
(`if request.extract_target:`), not an `is not None` check. -/
theorem C5_counterexample :
    emptyTargetReq.mode = .extract ∧
    emptyTargetReq.extract_target.isSome = true ∧
    emptyTargetReq.extra_params "target" = none ∧
    (nueva_to_acestep emptyTargetReq).kwargs "target" = none := by
  refine ⟨rfl, rfl, rfl, ?_⟩
  rfl

set_option maxRecDepth 8000 in
/-- C5 amended: the kwargs of the engine task are built as follows — the
preserve entries are present iff `mode = cover`; a `target` entry is
present iff `mode = extract` and `extract_target` is set to a non-empty
string; add/remove instrument entries are present iff `mode = layer` and
the corresponding list is set and non-empty; a `seed` entry is present iff
the request's seed is set; finally `extra_params` is merged last, so every
key in `extra_params` maps to the `extra_params` value, overriding any
previously computed entry. -/
theorem C5_kwargs_construction (r : NuevaRequest) :
    (∀ k, (nueva_to_acestep r).kwargs k =
      match r.extra_params k with
      | some v => some v
      | none => nuevaKwargsBase r k) ∧
    ((nuevaKwargsBase r "preserve_melody").isSome = true ↔ r.mode = .cover) ∧
    ((nuevaKwargsBase r "preserve_tempo").isSome = true ↔ r.mode = .cover) ∧
    ((nuevaKwargsBase r "preserve_key").isSome = true ↔ r.mode = .cover) ∧
    ((nuevaKwargsBase r "target").isSome = true ↔
      r.mode = .extract ∧ strOptTruthy r.extract_target = true) ∧
    ((nuevaKwargsBase r "add_instruments").isSome = true ↔
      r.mode = .layer ∧ listOptTruthy r.add_layers = true) ∧
    ((nuevaKwargsBase r "remove_instruments").isSome = true ↔
      r.mode = .layer ∧ listOptTruthy r.remove_layers = true) ∧
    ((nuevaKwargsBase r "seed").isSome = true ↔ r.seed.isSome = true) := by
  refine ⟨fun k => rfl, ?_, ?_, ?_, ?_, ?_, ?_, ?_⟩ <;>
    cases hs : r.seed <;> cases hm : r.mode <;>
      cases ht : r.extract_target <;> cases ha : r.add_layers <;>
        cases hr : r.remove_layers <;>
          simp [nuevaKwargsBase, Dict, dictInsert, emptyDict, strOptTruthy,
            listOptTruthy, pyShowOptStr, ite_apply, hs, hm, ht, ha, hr]

/-- Environment for one `server.process_audio` dispatch: the outcome and
wall-clock duration (in ms) of each awaited or measured phase.  The clock
model: `time.time()` advances by the listed duration across each phase. -/
structure ProcessEnv where
  ensureResult : Bool
  ensureMs : ℕ
  inputExists : Bool
  existsCheckMs : ℕ
  translateMs : ℕ
  engineResponse : AceStepResponse
  engineMs : ℕ

/-- Result of `server.process_audio`: either a raised `HTTPException`
(status code and detail) or a returned `NuevaResponse`. -/
inductive ProcessOutcome where
  | httpError (status : ℕ) (detail : String)
  | ok (resp : NuevaResponse)

/-- Status code of an `HTTPException` outcome, if any. -/
def outcomeStatus : ProcessOutcome → Option ℕ
  | .httpError s _ => some s
  | .ok _ => none

/-- `processing_time_ms` of a returned response, if any. -/
def outcomeTimeMs : ProcessOutcome → Option ℕ
  | .httpError _ _ => none
  | .ok r => some r.processing_time_ms

/-- Instrumented dispatch result: the outcome plus how many times
`ensure_running` and the Engine Client `process` call were invoked. -/
structure ProcessTrace where
  outcome : ProcessOutcome
  ensureCalls : ℕ
  engineCalls : ℕ

/-- `server.process_audio`: the `/process` HTTP handler.  Mirrors the
source order: `start_time = time.time()` at entry; then
`ensure_running()` (503 on failure); then the input-file existence check
(400 on failure, guarded by Python truthiness of `input_path`); then
translation, the Engine Client call, and
`processing_time_ms = int((time.time() - start_time) * 1000)` computed
right after the engine call, before the backward translation. -/
def process_audio (env : ProcessEnv) (request : NuevaRequest) : ProcessTrace :=
  let startClock : ℕ := 0
  let clock := startClock + env.ensureMs
  if env.ensureResult = false then
    { outcome := .httpError 503
        "ACE-Step API is not available. Please ensure ACE-Step is installed."
      ensureCalls := 1
      engineCalls := 0 }
  else
    let clock := if request.input_path ≠ "" then clock + env.existsCheckMs else clock
    if request.input_path ≠ "" ∧ env.inputExists = false then
      { outcome := .httpError 400 ("Input file not found: " ++ request.input_path)
        ensureCalls := 1
        engineCalls := 0 }
    else
      let clock := clock + env.translateMs
      let clock := clock + env.engineMs
      let processing_time_ms := clock - startClock
      { outcome := .ok (acestep_to_nueva env.engineResponse request processing_time_ms)
        ensureCalls := 1
        engineCalls := 1 }

/-- Environment exhibiting the C3 counterexample: supervisor startup takes
100 ms, validation 3 ms, the engine call 7 ms. -/
def c3env : ProcessEnv :=
  { ensureResult := true
    ensureMs := 100
    inputExists := true
    existsCheckMs := 3
    translateMs := 0
    engineResponse := { success := true, audio_path := some "done.wav" }
    engineMs := 7 }

/-- C3 counterexample: with a 7 ms engine call but 100 ms of supervisor
startup and 3 ms of validation, the reported `processing_time_ms` is 110,
not 7: the timer starts at handler entry, before `ensure_running` and
validation, contradicting the claim that only the Engine Client call is
measured. -/
theorem C3_counterexample :
    c3env.engineMs = 7 ∧
    outcomeTimeMs (process_audio c3env sampleCoverReq).outcome = some 110 ∧
    some (110 : ℕ) ≠ some 7 := by
  refine ⟨rfl, ?_, by simp⟩
  rfl

/-- C3 amended: on the success path, `processing_time_ms` is the wall-clock
span from handler entry to just after the Engine Client call returns: the
durations of `ensure_running`, the input-existence validation and the
forward translation are all included along with the engine call itself. -/
theorem C3_processing_time_includes_startup (env : ProcessEnv) (r : NuevaRequest)
    (hens : env.ensureResult = true) (hpath : r.input_path ≠ "")
    (hex : env.inputExists = true) :
    outcomeTimeMs (process_audio env r).outcome =
      some (env.ensureMs + env.existsCheckMs + env.translateMs + env.engineMs) := by
  simp only [process_audio, hens, hpath, hex]
  simp [outcomeTimeMs, acestep_to_nueva, hpath]
  cases hs : env.engineResponse.success <;> simp [hs]

/-- Witness for C3 amended at the counterexample environment. -/
theorem C3_processing_time_includes_startup_witness :
    outcomeTimeMs (process_audio c3env sampleCoverReq).outcome = some 110 :=
  C3_processing_time_includes_startup c3env sampleCoverReq rfl
    (by simp [sampleCoverReq]) rfl

/-- Environment exhibiting the C4 counterexample: the engine is healthy and
the request's input file does not exist. -/
def c4env : ProcessEnv :=
  { ensureResult := true
    ensureMs := 1
    inputExists := false
    existsCheckMs := 1
    translateMs := 0
    engineResponse := { success := true }
    engineMs := 0 }

/-- Request whose input path does not exist on disk. -/
def missingInputReq : NuevaRequest :=
  { mode := .transform
    input_path := "missing.wav"
    output_path := "out.wav" }

/-- C4 counterexample: a request whose `input_path` does not exist gets a
typed 400 error and the Engine Client is not invoked, but the Supervisor
IS touched: `ensure_running` runs (once) before the existence check,
contradicting the claim's "without touching the Supervisor". -/
theorem C4_counterexample :
    outcomeStatus (process_audio c4env missingInputReq).outcome = some 400 ∧
    (process_audio c4env missingInputReq).engineCalls = 0 ∧
    (process_audio c4env missingInputReq).ensureCalls = 1 ∧
    (1 : ℕ) ≠ 0 := by
  refine ⟨rfl, rfl, rfl, by simp⟩

/-- C4 amended: a `/process` request whose `input_path` does not exist on
disk is rejected with a typed 400 error and the Engine Client is never
invoked, but the dispatcher calls `ensure_running` (exactly once) before
the existence check, so the Supervisor is touched first. -/
theorem C4_validation_after_ensure (env : ProcessEnv) (r : NuevaRequest)
    (hens : env.ensureResult = true) (hpath : r.input_path ≠ "")
    (hex : env.inputExists = false) :
    outcomeStatus (process_audio env r).outcome = some 400 ∧
    (process_audio env r).engineCalls = 0 ∧
    (process_audio env r).ensureCalls = 1 := by
  refine ⟨?_, ?_, ?_⟩ <;> simp [process_audio, outcomeStatus, hens, hpath, hex]

/-- Witness for C4 amended at the counterexample environment. -/
theorem C4_validation_after_ensure_witness :
    outcomeStatus (process_audio c4env missingInputReq).outcome = some 400 :=
  (C4_validation_after_ensure c4env missingInputReq rfl
    (by simp [missingInputReq]) rfl).1

/-- Mutable state of `process_manager.AceStepProcessManager`: the subprocess
handle (modelled as its exit-status sequence: `exited i` says whether
`poll()` at wait-loop iteration `i` observes the process exited), the
`_healthy` flag and the `_starting` flag. -/
structure AceStepProcessManager where
  process : Option (ℕ → Bool) := none
  healthy : Bool := false
  starting : Bool := false

/-- `is_running`: a process handle exists and `poll()` (observed at wait
iteration `i`) returns `None`. -/
def AceStepProcessManager.is_running (self : AceStepProcessManager) (i : ℕ) : Bool :=
  match self.process with
  | none => false
  | some exited => !(exited i)

/-- Outcome of the single bounded-timeout HTTP probe in `health_check`:
either a status code or a raised transport exception. -/
inductive HealthOutcome where
  | ok (status : ℕ)
  | exc (msg : String)

/-- The literal `timeout=5.0` of the probe's HTTP client. -/
def healthProbeTimeout : ℚ := 5

/-- `AceStepProcessManager.health_check`: a 200 status is healthy; any
other status or any exception is unhealthy; `_healthy` is updated and the
exception is swallowed, never re-raised. -/
def AceStepProcessManager.health_check (self : AceStepProcessManager)
    (o : HealthOutcome) : Bool × AceStepProcessManager :=
  match o with
  | .ok status =>
      let h := decide (status = 200)
      (h, { self with healthy := h })
  | .exc _ => (false, { self with healthy := false })

/-- Environment of one `start()` run: the health-probe result at each wait
iteration, the exit status the launched process would show at each wait
iteration, and whether the interpreter lookup and `subprocess.Popen` both
succeed (`launchOk`). -/
structure StartEnv where
  probe : ℕ → Bool
  exited : ℕ → Bool
  launchOk : Bool

/-- `AceStepProcessManager._wait_for_healthy`: poll `health_check` until
healthy, the process dies, or the `startup_timeout` elapses; `fuel` is the
number of poll iterations the timeout allows. -/
def waitForHealthy (probe : ℕ → Bool) (proc : Option (ℕ → Bool)) :
    ℕ → ℕ → Bool
  | 0, _ => false
  | fuel + 1, i =>
      if probe i then true
      else
        match proc with
        | some exited =>
            if exited i then false
            else waitForHealthy probe proc fuel (i + 1)
        | none => waitForHealthy probe proc fuel (i + 1)

/-- `AceStepProcessManager.start`: if a start is already in flight, wait on
it; otherwise set `_starting`, launch the subprocess (`launchOk = false`
models both a missing interpreter and a `Popen` failure, each of which
returns `False`), wait for health, and clear `_starting` in the `finally`
block.  Note the source never terminates or clears `self._process` on a
failed start. -/
def AceStepProcessManager.start (env : StartEnv) (fuel : ℕ)
    (self : AceStepProcessManager) : Bool × AceStepProcessManager :=
  if self.starting then
    let r := waitForHealthy env.probe self.process fuel 0
    (r, { self with healthy := r })
  else
    if env.launchOk = false then
      (false, { self with starting := false })
    else
      let proc := some env.exited
      let r := waitForHealthy env.probe proc fuel 0
      (r, { process := proc, healthy := r, starting := false })

/-- If no probe ever succeeds, `_wait_for_healthy` returns false. -/
theorem waitForHealthy_of_probe_false (probe : ℕ → Bool)
    (proc : Option (ℕ → Bool)) (hnp : ∀ i, probe i = false) :
    ∀ fuel i, waitForHealthy probe proc fuel i = false := by
  intro fuel
  induction fuel with
  | zero => intro i; rfl
  | succ n ih =>
      intro i
      cases proc with
      | none => simp [waitForHealthy, hnp i, ih]
      | some exited =>
          cases he : exited i <;> simp [waitForHealthy, hnp i, he, ih]

/-- Environment for the C6 counterexample: the health probe never succeeds
within the timeout window, and the launched process never exits. -/
def aliveEnv : StartEnv :=
  { probe := fun _ => false
    exited := fun _ => false
    launchOk := true }

/-- C6 counterexample: after a full startup-timeout of failed probes (24
iterations of the default 5 s interval within the default 120 s timeout),
`start()` returns false and `_starting` is cleared, but the Supervisor
still holds the launched subprocess and `is_running` is true — it is not
in the claimed `Stopped` state with no live launched subprocess. -/
theorem C6_counterexample :
    (AceStepProcessManager.start aliveEnv 24 {}).1 = false ∧
    (AceStepProcessManager.start aliveEnv 24 {}).2.starting = false ∧
    (AceStepProcessManager.start aliveEnv 24 {}).2.process.isSome = true ∧
    (AceStepProcessManager.start aliveEnv 24 {}).2.is_running 24 = true := by
  refine ⟨?_, rfl, rfl, rfl⟩
  have h := waitForHealthy_of_probe_false aliveEnv.probe (some aliveEnv.exited)
    (fun _ => rfl) 24 0
  simp [AceStepProcessManager.start, aliveEnv] at h ⊢
  exact h

/-- C6 amended: if no health probe succeeds within `startup_timeout` after
the Supervisor launches the engine process, `start()` returns false and
`_starting` is cleared (not stuck in `Starting`), but the launched
subprocess handle is retained in `_process` and is never terminated: the
Supervisor is not left in a clean `Stopped` state. -/
theorem C6_start_timeout_keeps_process (env : StartEnv) (fuel : ℕ)
    (self : AceStepProcessManager) (hnp : ∀ i, env.probe i = false)
    (hs : self.starting = false) (hl : env.launchOk = true) :
    (AceStepProcessManager.start env fuel self).1 = false ∧
    (AceStepProcessManager.start env fuel self).2.starting = false ∧
    (AceStepProcessManager.start env fuel self).2.process = some env.exited := by
  simp [AceStepProcessManager.start, hs, hl,
    waitForHealthy_of_probe_false env.probe (some env.exited) hnp fuel 0]

/-- Witness for C6 amended at the counterexample environment. -/
theorem C6_start_timeout_keeps_process_witness :
    (AceStepProcessManager.start aliveEnv 24 {}).1 = false :=
  (C6_start_timeout_keeps_process aliveEnv 24 {} (fun _ => rfl) rfl rfl).1

/-- `acestep_client.AceStepClient` configuration. -/
structure AceStepClient where
  base_url : String := "http://localhost:8000"
  timeout : ℚ := 300

/-- Parsed JSON body of a 200 response from the engine's `/generate`
endpoint, as consumed by `data.get("audio_path")` / `data.get("metadata", {})`. -/
structure EngineBody where
  audio_path : Option String := none
  metadata : Dict := emptyDict

/-- Transport-level outcome of the single `POST /generate` call: a response
(whose body is `none` when `response.json()` raises on a malformed body),
an `httpx.TimeoutException`, an `httpx.ConnectError`, or any other
exception. -/
inductive PostOutcome where
  | resp (status : ℕ) (text : String) (body : Option EngineBody)
  | timeoutExc
  | connectExc (msg : String)
  | otherExc (msg : String)

/-- `AceStepClient.process`: one call, no retries; non-200 statuses,
timeouts, connection errors, malformed bodies and all other exceptions are
mapped to `AceStepResponse{success := false, error := some reason}` and
never re-raised (the function is total over every outcome). -/
def AceStepClient.process (self : AceStepClient) (request : AceStepRequest)
    (o : PostOutcome) : AceStepResponse :=
  match o with
  | .resp status text body =>
      if status ≠ 200 then
        { success := false
          error := some ("ACE-Step API error: " ++ toString status ++ " - " ++ text) }
      else
        match body with
        | some data =>
            { success := true
              audio_path := data.audio_path
              metadata := data.metadata }
        | none =>
            { success := false
              error := some "ACE-Step client error: malformed JSON response" }
  | .timeoutExc =>
      { success := false
        error := some ("ACE-Step request timed out after " ++ toString self.timeout ++ "s") }
  | .connectExc msg =>
      { success := false
        error := some ("Could not connect to ACE-Step API: " ++ msg) }
  | .otherExc msg =>
      { success := false
        error := some ("ACE-Step client error: " ++ msg) }

/-- A transport-level failure: anything but a 200 response with a
well-formed JSON body. -/
def isTransportFailure : PostOutcome → Bool
  | .resp status _ body => status != 200 || body.isNone
  | _ => true

/-- C8: neither `health_check` nor the Engine Client's `process` propagates
an exception: both are total over every transport outcome; the health
probe uses the fixed 5-second timeout and reports false on any exception
or non-200 status; and `process` maps every transport-level failure
(non-200 status, malformed body, timeout, connection error, other
exception) to `success = false` with an error reason. -/
theorem C8_failures_never_raised :
    healthProbeTimeout = 5 ∧
    (∀ (self : AceStepProcessManager) (m : String),
      (self.health_check (.exc m)).1 = false) ∧
    (∀ (self : AceStepProcessManager) (s : ℕ), s ≠ 200 →
      (self.health_check (.ok s)).1 = false) ∧
    (∀ (c : AceStepClient) (req : AceStepRequest) (o : PostOutcome),
      isTransportFailure o = true →
        (c.process req o).success = false ∧ (c.process req o).error.isSome = true) := by
  refine ⟨rfl, fun self m => rfl, ?_, ?_⟩
  · intro self s hs
    simp [AceStepProcessManager.health_check, hs]
  · intro c req o ho
    cases o with
    | resp status text body =>
        by_cases h2 : status = 200
        · cases body with
          | some data => simp [isTransportFailure, h2] at ho
          | none => simp [AceStepClient.process, h2]
        · simp [AceStepClient.process, h2]
    | timeoutExc => simp [AceStepClient.process]
    | connectExc msg => simp [AceStepClient.process]
    | otherExc msg => simp [AceStepClient.process]

/-- Witness for C8 at concrete failing outcomes. -/
theorem C8_failures_never_raised_witness :
    (AceStepProcessManager.health_check {} (.exc "connection refused")).1 = false ∧
    (AceStepClient.process {} { task := "cover" } .timeoutExc).success = false ∧
    (AceStepProcessManager.health_check {} (.ok 503)).1 = false :=
  ⟨C8_failures_never_raised.2.1 {} "connection refused",
   (C8_failures_never_raised.2.2.2 {} { task := "cover" } .timeoutExc rfl).1,
   C8_failures_never_raised.2.2.1 {} 503 (by simp)⟩

/-- `bridge.Action`: the line-protocol action enumeration (named
`BridgeAction` here because Mathlib already declares `Action`). -/
inductive BridgeAction where
  | ping
  | process
  | list_models
  | get_model_info
  | abort
deriving DecidableEq

/-- `bridge.BridgeRequest`. -/
structure BridgeRequest where
  action : BridgeAction
  request_id : Option String := none
  prompt : Option String := none
  input_path : Option String := none
  output_path : Option String := none
  model : Option String := none
  model_params : Dict := emptyDict
  context : Dict := emptyDict

/-- `bridge.BridgeResponse`. -/
structure BridgeResponse where
  success : Bool
  request_id : Option String := none
  tool_used : Option String := none
  reasoning : Option String := none
  message : Option String := none
  neural_changes : Option Dict := none
  error : Option String := none
  error_code : Option String := none

/-- Result dictionary returned by a model processor's `process` method, as
consumed via `result.get(...)` with defaults. -/
structure ProcResult where
  reasoning : String := ""
  message : String := "Processing complete"
  intentional_artifacts : List String := []

/-- `AIBridge._handle_process`: validation order is model (truthy and
loaded), then `input_path`, then `output_path`, each rejected with a typed
error before the model processor is invoked; the processor outcome
(`procOutcome`) is consumed only after all three checks pass.  The second
component counts processor invocations. -/
def handle_process (models : List String) (procOutcome : Except String ProcResult)
    (procMs : ℕ) (request : BridgeRequest) : BridgeResponse × ℕ :=
  if strOptTruthy request.model = false ∨ pyShowOptStr request.model ∉ models then
    ({ success := false
       request_id := request.request_id
       error := some ("Model not found: " ++ pyShowOptStr request.model)
       error_code := some "MODEL_NOT_FOUND" }, 0)
  else if strOptTruthy request.input_path = false then
    ({ success := false
       request_id := request.request_id
       error := some "input_path is required"
       error_code := some "MISSING_PARAMETER" }, 0)
  else if strOptTruthy request.output_path = false then
    ({ success := false
       request_id := request.request_id
       error := some "output_path is required"
       error_code := some "MISSING_PARAMETER" }, 0)
  else
    match procOutcome with
    | .ok result =>
        ({ success := true
           request_id := request.request_id
           tool_used := some "neural"
           reasoning := some result.reasoning
           message := some result.message
           neural_changes := some (
             dictInsert (dictInsert (dictInsert (dictInsert emptyDict
               "model" (.str (pyShowOptStr request.model)))
               "output_path" (.str (pyShowOptStr request.output_path)))
               "processing_time_ms" (.int procMs))
               "intentional_artifacts" (.strList result.intentional_artifacts)) }, 1)
    | .error e =>
        ({ success := false
           request_id := request.request_id
           error := some e
           error_code := some "PROCESSING_ERROR" }, 1)

/-- A `process` request that omits both `output_path` and `model`. -/
def c9req : BridgeRequest :=
  { action := .process
    input_path := some "in.wav" }

/-- C9 counterexample: a `process` request omitting `output_path` whose
`model` is also missing is answered with `error_code = "MODEL_NOT_FOUND"`,
not `"MISSING_PARAMETER"`: the model check precedes the parameter checks.
The processor is still never invoked. -/
theorem C9_counterexample :
    c9req.output_path = none ∧
    (handle_process ["ace-step"] (.ok {}) 0 c9req).1.error_code
      = some "MODEL_NOT_FOUND" ∧
    some "MODEL_NOT_FOUND" ≠ some "MISSING_PARAMETER" ∧
    (handle_process ["ace-step"] (.ok {}) 0 c9req).2 = 0 := by
  refine ⟨rfl, ?_, by simp, ?_⟩ <;> rfl

/-- Whether the request names a loaded model (Python: `model_id` truthy and
`model_id in self.models`). -/
def modelKnown (request : BridgeRequest) (models : List String) : Bool :=
  strOptTruthy request.model && decide (pyShowOptStr request.model ∈ models)

/-- C9 amended: every `process` request that omits `output_path` yields
`success = false` without invoking the model processor; the error code is
`MISSING_PARAMETER` provided the request names a loaded model, and
`MODEL_NOT_FOUND` otherwise (the model check runs first). -/
theorem C9_missing_output_path (models : List String)
    (procOutcome : Except String ProcResult) (procMs : ℕ) (request : BridgeRequest)
    (h : request.output_path = none) :
    (handle_process models procOutcome procMs request).1.success = false ∧
    (handle_process models procOutcome procMs request).2 = 0 ∧
    (handle_process models procOutcome procMs request).1.error_code =
      some (if modelKnown request models then "MISSING_PARAMETER"
            else "MODEL_NOT_FOUND") := by
  by_cases hm : strOptTruthy request.model = false ∨ pyShowOptStr request.model ∉ models
  · have hk : modelKnown request models = false := by
      rcases hm with hm | hm <;> simp [modelKnown, hm]
    refine ⟨?_, ?_, ?_⟩ <;> simp [handle_process, hm, hk]
  · have hk : modelKnown request models = true := by
      push_neg at hm
      simp [modelKnown, hm.1, hm.2]
    by_cases hi : strOptTruthy request.input_path = false
    · refine ⟨?_, ?_, ?_⟩ <;> simp [handle_process, hm, hi, hk]
    · have ho : strOptTruthy request.output_path = false := by
        simp [strOptTruthy, h]
      refine ⟨?_, ?_, ?_⟩ <;> simp [handle_process, hm, hi, ho, hk]

/-- Witness for C9 amended at the counterexample request. -/
theorem C9_missing_output_path_witness :
    (handle_process ["ace-step"] (.ok {}) 0 c9req).2 = 0 :=
  (C9_missing_output_path ["ace-step"] (.ok {}) 0 c9req rfl).2.1

/-- Program counter of one caller of `ensure_running()` under the
cooperative single-threaded scheduler.  Each value marks a suspension
point of the source; the transitions between them are the synchronous code
regions, which run atomically:

* `healthCheck`: suspended inside the initial `await self.health_check()`;
* `afterHealth`: the probe returned false (engine down); the caller now
  synchronously runs the auto-start check, the `_starting` check, and — on
  the start path — `start()`'s own `_starting` check, `self._starting =
  True`, the interpreter lookup and `subprocess.Popen` (none of which
  contains an `await`), up to the suspension inside `_wait_for_healthy`;
* `waiting starter`: suspended inside `_wait_for_healthy` (as the caller
  that launched, if `starter`, else as a caller awaiting the in-flight
  start);
* `finished`: `ensure_running()` returned. -/
inductive EnsurePC where
  | healthCheck
  | afterHealth
  | waiting (starter : Bool)
  | finished
deriving DecidableEq

/-- Configuration of two concurrent `ensure_running()` callers plus the
shared supervisor state: the `_starting` flag, the number of subprocess
launches performed (`launches`), and the number of completed starts
(`finishes`, incremented when a starter's `finally: self._starting =
False` runs). -/
structure EnsureConfig where
  pcA : EnsurePC
  pcB : EnsurePC
  starting : Bool
  launches : ℕ
  finishes : ℕ
deriving DecidableEq

/-- One cooperative step of either caller while the engine stays down
(every health probe returns false).  `auto` is the supervisor's
`auto_start` flag. -/
inductive EnsureStep : Bool → EnsureConfig → EnsureConfig → Prop where
  | healthA (a : Bool) (pb : EnsurePC) (st : Bool) (l f : ℕ) :
      EnsureStep a ⟨.healthCheck, pb, st, l, f⟩ ⟨.afterHealth, pb, st, l, f⟩
  | healthB (a : Bool) (pa : EnsurePC) (st : Bool) (l f : ℕ) :
      EnsureStep a ⟨pa, .healthCheck, st, l, f⟩ ⟨pa, .afterHealth, st, l, f⟩
  | noAutoA (pb : EnsurePC) (st : Bool) (l f : ℕ) :
      EnsureStep false ⟨.afterHealth, pb, st, l, f⟩ ⟨.finished, pb, st, l, f⟩
  | noAutoB (pa : EnsurePC) (st : Bool) (l f : ℕ) :
      EnsureStep false ⟨pa, .afterHealth, st, l, f⟩ ⟨pa, .finished, st, l, f⟩
  | deferA (pb : EnsurePC) (l f : ℕ) :
      EnsureStep true ⟨.afterHealth, pb, true, l, f⟩ ⟨.waiting false, pb, true, l, f⟩
  | deferB (pa : EnsurePC) (l f : ℕ) :
      EnsureStep true ⟨pa, .afterHealth, true, l, f⟩ ⟨pa, .waiting false, true, l, f⟩
  | launchA (pb : EnsurePC) (l f : ℕ) :
      EnsureStep true ⟨.afterHealth, pb, false, l, f⟩ ⟨.waiting true, pb, true, l + 1, f⟩
  | launchB (pa : EnsurePC) (l f : ℕ) :
      EnsureStep true ⟨pa, .afterHealth, false, l, f⟩ ⟨pa, .waiting true, true, l + 1, f⟩
  | pollA (a : Bool) (b : Bool) (pb : EnsurePC) (st : Bool) (l f : ℕ) :
      EnsureStep a ⟨.waiting b, pb, st, l, f⟩ ⟨.waiting b, pb, st, l, f⟩
  | pollB (a : Bool) (b : Bool) (pa : EnsurePC) (st : Bool) (l f : ℕ) :
      EnsureStep a ⟨pa, .waiting b, st, l, f⟩ ⟨pa, .waiting b, st, l, f⟩
  | finishStarterA (a : Bool) (pb : EnsurePC) (st : Bool) (l f : ℕ) :
      EnsureStep a ⟨.waiting true, pb, st, l, f⟩ ⟨.finished, pb, false, l, f + 1⟩
  | finishStarterB (a : Bool) (pa : EnsurePC) (st : Bool) (l f : ℕ) :
      EnsureStep a ⟨pa, .waiting true, st, l, f⟩ ⟨pa, .finished, false, l, f + 1⟩
  | finishWaiterA (a : Bool) (pb : EnsurePC) (st : Bool) (l f : ℕ) :
      EnsureStep a ⟨.waiting false, pb, st, l, f⟩ ⟨.finished, pb, st, l, f⟩
  | finishWaiterB (a : Bool) (pa : EnsurePC) (st : Bool) (l f : ℕ) :
      EnsureStep a ⟨pa, .waiting false, st, l, f⟩ ⟨pa, .finished, st, l, f⟩

/-- Configurations reachable from two callers entering `ensure_running()`
while the engine is down (`_starting = false`, no launches yet). -/
inductive EnsureReachable (a : Bool) : EnsureConfig → Prop where
  | init : EnsureReachable a ⟨.healthCheck, .healthCheck, false, 0, 0⟩
  | step {c c' : EnsureConfig} :
      EnsureReachable a c → EnsureStep a c c' → EnsureReachable a c'

/-- Number of callers currently waiting as the launcher of an in-flight
start. -/
def starterCount (c : EnsureConfig) : ℕ :=
  (if c.pcA = .waiting true then 1 else 0) + (if c.pcB = .waiting true then 1 else 0)

/-- Whether a caller is suspended in `_wait_for_healthy`. -/
def isWaiting : EnsurePC → Bool
  | .waiting _ => true
  | _ => false

/-- Inductive invariant of the two-caller system: at most one start is in
flight, `_starting` tracks it exactly, every launch is accounted for by a
completed or in-flight start, and once any caller waits a launch has
happened. -/
def ensureInv (c : EnsureConfig) : Prop :=
  starterCount c ≤ 1 ∧
  (c.starting = true ↔ starterCount c = 1) ∧
  c.launches = c.finishes + starterCount c ∧
  ((isWaiting c.pcA = true ∨ isWaiting c.pcB = true) → 1 ≤ c.launches)

theorem ensureInv_of_reachable {a : Bool} {c : EnsureConfig}
    (h : EnsureReachable a c) : ensureInv c := by
  induction h with
  | init => simp [ensureInv, starterCount, isWaiting]
  | step _ hs ih =>
      cases hs <;> rename EnsurePC => p <;> cases p <;>
        simp_all [ensureInv, starterCount, isWaiting] <;> omega

/-- C7: under the cooperative scheduling model, when `ensure_running()` is
entered while a start is already in flight the caller can only move to
waiting on that same start (never launch), and in any reachable
configuration in which both callers are waiting and the in-flight start
has not yet completed, exactly one subprocess launch has occurred. -/
theorem C7_single_launch_in_flight :
    (∀ c c' : EnsureConfig, EnsureStep true c c' → c.pcA = .afterHealth →
      c.starting = true → c'.pcA ≠ .afterHealth →
      c'.pcA = .waiting false ∧ c'.launches = c.launches) ∧
    (∀ c : EnsureConfig, EnsureReachable true c → c.finishes = 0 →
      isWaiting c.pcA = true → isWaiting c.pcB = true → c.launches = 1) := by
  constructor
  · intro c c' hs hpc hst hne
    cases hs <;> simp_all
  · intro c hr hf hA hB
    have hinv := ensureInv_of_reachable hr
    obtain ⟨h1, h2, h3, h4⟩ := hinv
    have h5 := h4 (Or.inl hA)
    omega

/-- Witness for C7: the concrete interleaving in which caller A launches
and caller B then observes the in-flight start and waits, reaching a
configuration with both callers waiting, no start completed, and exactly
one launch. -/
theorem C7_single_launch_in_flight_witness :
    (⟨.waiting true, .waiting false, true, 1, 0⟩ : EnsureConfig).launches = 1 :=
  C7_single_launch_in_flight.2 ⟨.waiting true, .waiting false, true, 1, 0⟩
    (.step (.step (.step (.step .init
      (.healthA true .healthCheck false 0 0))
      (.launchA .healthCheck 0 0))
      (.healthB true (.waiting true) true 1 0))
      (.deferB (.waiting true) 1 0))
    rfl rfl rfl
